import Mathlib

/-!
Verification of the Vexa transcription serving core against its specification.

The development shallowly embeds two Python modules:

* `services/transcription-service/main.py` — the transcription server:
  admission control (`transcribe_audio`, lines 424-451), language detection
  (`_detect_language_improved`), the temperature-fallback decode loop and
  response shaping (`transcribe_audio`, lines 511-625).
* `services/WhisperLive/whisper_live/remote_transcriber.py` — the client
  adapter: the retry loop of `RemoteTranscriber._call_remote_api` and the
  response normalization of `RemoteTranscriber._response_to_segments`.

Python floats are modelled as rationals (`ℚ`); the opaque speech decoder is a
parameter of the embedding (a function from a temperature to the decoder's
reported segments and language).  Values read from JSON that may be absent or
fail `float()` conversion are modelled as `Option (Option ℚ)`:
`none` = key absent, `some none` = present but not parseable as a float,
`some (some q)` = present with float value `q`.
-/

namespace Vexa

/-- Server configuration, mirroring the environment-variable driven globals of
`main.py` (the `:=` values are the documented defaults). -/
structure Config where
  compressionRatioThreshold : ℚ := 12/5
  logProbThreshold : ℚ := -1
  noSpeechThreshold : ℚ := 3/5
  useTemperatureFallback : Bool := false
  languageDetectionThreshold : ℚ := 1/2
  maxConcurrent : ℕ := 2
  maxQueueSize : ℕ := 10
  failFastWhenBusy : Bool := true
  busyRetryAfterS : ℤ := 1
deriving Repr, DecidableEq

/-! ## Admission control (`transcribe_audio`, main.py lines 424-451) -/

/-- Outcome of the admission check performed under `waiting_requests_lock`. -/
inductive AdmDecision where
  /-- Fail-fast rejection: 503 with the given `Retry-After` value. -/
  | rejectBusy (retryAfter : ℤ)
  /-- Queue-full rejection: 503 with the given `Retry-After` value. -/
  | rejectQueueFull (retryAfter : ℤ)
  /-- Admitted: the waiting counter was incremented. -/
  | admitted
deriving Repr, DecidableEq

/-- The admission check of `transcribe_audio` (main.py lines 424-444), run
under `waiting_requests_lock`.  `semaphoreLocked` models
`transcription_semaphore.locked()` (no permit available); `waiting` models the
`waiting_requests` counter.  Returns the decision together with the new value
of the waiting counter; the semaphore is not touched here. -/
def admissionCheck (cfg : Config) (semaphoreLocked : Bool) (waiting : ℕ) :
    AdmDecision × ℕ :=
  if cfg.failFastWhenBusy ∧ (semaphoreLocked ∨ waiting > 0) then
    (.rejectBusy (max 1 cfg.busyRetryAfterS), waiting)
  else if waiting ≥ cfg.maxQueueSize then
    (.rejectQueueFull (max 1 cfg.busyRetryAfterS), waiting)
  else
    (.admitted, waiting + 1)

/-! ## Per-request semaphore discipline (main.py lines 446-635)

An admitted request acquires the semaphore, decrements the waiting counter,
runs the body (which may succeed, fail with 400 on undecodable audio, or fail
with 500 on a decoder exception) and always releases the semaphore in the
`finally` block.  A request rejected at admission raises before the `try`
block and never touches the semaphore. -/

/-- How the body of an admitted request exits (main.py lines 453-632). -/
inductive ExitPath where
  /-- Normal completion: 200 with the transcription response. -/
  | success
  /-- `soundfile` failed to decode the upload: 400 (main.py line 467). -/
  | badAudio
  /-- Any other exception from the body: 500 (main.py line 632). -/
  | decoderError
deriving Repr, DecidableEq

/-- Externally observable events of one request through `transcribe_audio`. -/
inductive ReqEvent where
  /-- An HTTP error response with status and (for 503) a `Retry-After` value. -/
  | httpReject (status : ℕ) (retryAfter : ℤ)
  /-- `await transcription_semaphore.acquire()` (main.py line 448). -/
  | semAcquire
  /-- `waiting_requests -= 1` under the lock (main.py line 451). -/
  | decWaiting
  /-- The response sent for the body's exit path. -/
  | respond (status : ℕ)
  /-- `transcription_semaphore.release()` in `finally` (main.py line 635). -/
  | semRelease
deriving Repr, DecidableEq

/-- HTTP status of each body exit path. -/
def ExitPath.status : ExitPath → ℕ
  | .success => 200
  | .badAudio => 400
  | .decoderError => 500

/-- The sequence of events one request produces, as a function of the
admission-time state and of how its body exits (main.py lines 424-635). -/
def requestEvents (cfg : Config) (semaphoreLocked : Bool) (waiting : ℕ)
    (path : ExitPath) : List ReqEvent :=
  match (admissionCheck cfg semaphoreLocked waiting).1 with
  | .rejectBusy r => [.httpReject 503 r]
  | .rejectQueueFull r => [.httpReject 503 r]
  | .admitted => [.semAcquire, .decWaiting, .respond path.status, .semRelease]

/-- Number of semaphore acquisitions in an event list. -/
def acquireCount (es : List ReqEvent) : ℕ := es.count .semAcquire

/-- Number of semaphore releases in an event list. -/
def releaseCount (es : List ReqEvent) : ℕ := es.count .semRelease

/-! ## Server concurrency state machine

Global state: free semaphore permits, in-flight decoder invocations (requests
between `acquire` and `release`), and the waiting counter. -/

/-- Shared mutable server state (main.py lines 325-333). -/
structure SrvState where
  /-- Free permits of `transcription_semaphore`. -/
  avail : ℕ
  /-- Requests currently between semaphore acquire and release, i.e. in-flight
  decoder invocations. -/
  inflight : ℕ
  /-- The `waiting_requests` counter. -/
  waiting : ℕ
deriving Repr, DecidableEq

/-- Initial server state: all permits free, nothing in flight or waiting. -/
def initState (cfg : Config) : SrvState := ⟨cfg.maxConcurrent, 0, 0⟩

/-- One atomic step of the server, as performed by `transcribe_audio`. -/
inductive Step (cfg : Config) : SrvState → SrvState → Prop
  /-- A request passes the admission check and increments the waiting
  counter (main.py line 444).  `avail = 0` is exactly
  `transcription_semaphore.locked()`. -/
  | enqueue (a i w : ℕ)
      (h : (admissionCheck cfg (decide (a = 0)) w).1 = .admitted) :
      Step cfg ⟨a, i, w⟩ ⟨a, i, w + 1⟩
  /-- A waiting request acquires a free permit and decrements the waiting
  counter (main.py lines 448-451). -/
  | acquire (a i w : ℕ) : Step cfg ⟨a + 1, i, w + 1⟩ ⟨a, i + 1, w⟩
  /-- An in-flight request finishes (on any exit path) and releases its permit
  in the `finally` block (main.py line 635). -/
  | finish (a i w : ℕ) : Step cfg ⟨a, i + 1, w⟩ ⟨a + 1, i, w⟩

/-- States reachable from the initial state. -/
inductive Reachable (cfg : Config) : SrvState → Prop
  | init : Reachable cfg (initState cfg)
  | step {s s' : SrvState} : Reachable cfg s → Step cfg s s' → Reachable cfg s'

/-- Permit-accounting invariant: free permits plus in-flight requests always
equal the semaphore's capacity. -/
theorem reachable_avail_add_inflight (cfg : Config) (s : SrvState)
    (h : Reachable cfg s) : s.avail + s.inflight = cfg.maxConcurrent := by
  induction h with
  | init => simp [initState]
  | step _ hstep ih =>
    cases hstep with
    | enqueue a i w _ => simpa using ih
    | acquire a i w => simp only [SrvState.avail, SrvState.inflight] at ih ⊢; omega
    | finish a i w => simp only [SrvState.avail, SrvState.inflight] at ih ⊢; omega

/-! ## Remote adapter retry loop
(`RemoteTranscriber._call_remote_api`, remote_transcriber.py lines 248-396)

The HTTP transport is modelled as an oracle: a list giving the result of each
successive `http_client.post` call.  A `Retry-After` header is modelled
post-parse as `Option (Option ℚ)`: `none` = header absent, `some none` =
present but `float()` fails, `some (some q)` = parses to `q`. -/

/-- Result of one HTTP round trip, `α` being the parsed 2xx body. -/
inductive CallResult (α : Type) where
  /-- 2xx response whose body parsed successfully. -/
  | success (body : α)
  /-- Error status code (≥ 400) with the `Retry-After` header as modelled. -/
  | status (code : ℕ) (retryAfterHeader : Option (Option ℚ))
  /-- Transport-level failure (timeout, connection error, unparseable body). -/
  | transport
deriving Repr, DecidableEq

/-- The error re-raised after retries are exhausted. -/
inductive ErrKind where
  /-- `httpx.HTTPStatusError` for the given status code. -/
  | httpError (code : ℕ) (retryAfterHeader : Option (Option ℚ))
  /-- A transport-level exception. -/
  | transportError
deriving Repr, DecidableEq

/-- The error corresponding to a failed call result (`success` is mapped
arbitrarily; it is never used under the theorems' hypotheses). -/
def CallResult.toErr {α : Type} : CallResult α → ErrKind
  | .success _ => .transportError
  | .status c hdr => .httpError c hdr
  | .transport => .transportError

/-- A call result that `_call_remote_api` retries: any error status other
than 429/503, or a transport error. -/
def CallResult.isRetryable {α : Type} : CallResult α → Bool
  | .success _ => false
  | .status c _ => ¬(c = 429 ∨ c = 503)
  | .transport => true

/-- `retry_after = float(response.headers.get("Retry-After", "1"))` with 1.0 on
parse failure (remote_transcriber.py lines 317-321). -/
def retryAfterOf : Option (Option ℚ) → ℚ
  | none => 1
  | some none => 1
  | some (some q) => q

/-- Final outcome of `_call_remote_api`. -/
inductive ApiOutcome (α : Type) where
  /-- The parsed response is returned. -/
  | ok (body : α)
  /-- `RemoteTranscriberOverloaded` with status code and retry-after seconds. -/
  | overloaded (statusCode : ℕ) (retryAfterS : ℚ)
  /-- The last attempt's error, re-raised after retries were exhausted. -/
  | raised (err : ErrKind)
  /-- Model artifact: the oracle provided fewer results than calls made. -/
  | noResult
deriving Repr, DecidableEq

/-- Outcome of a run of `_call_remote_api` together with observable effort:
the number of HTTP calls made and the list of back-off sleeps performed. -/
structure ApiRun (α : Type) where
  outcome : ApiOutcome α
  calls : ℕ
  sleeps : List ℚ
deriving Repr, DecidableEq

/-- The `while retry_count <= self.max_retries` loop of `_call_remote_api`
(remote_transcriber.py lines 301-396), started at a given `retry_count`.
A 429/503 response raises `RemoteTranscriberOverloaded` at once (lines
316-326); it is re-raised untouched by the dedicated `except` arm (lines
372-375).  Any other failure increments `retry_count` and, while
`retry_count <= max_retries`, sleeps
`min(initial_retry_delay * 2 ** (retry_count - 1), max_retry_delay)` and
retries; otherwise the error is re-raised (lines 342-393). -/
def callRemoteApi {α : Type} (maxRetries : ℕ) (initialDelay maxDelay : ℚ) :
    ℕ → List (CallResult α) → ApiRun α
  | _, [] => ⟨.noResult, 0, []⟩
  | retryCount, r :: rest =>
    match r with
    | .success body => ⟨.ok body, 1, []⟩
    | .status c hdr =>
      if c = 429 ∨ c = 503 then
        ⟨.overloaded c (retryAfterOf hdr), 1, []⟩
      else
        if retryCount + 1 ≤ maxRetries then
          let d := min (initialDelay * 2 ^ retryCount) maxDelay
          let k := callRemoteApi maxRetries initialDelay maxDelay
            (retryCount + 1) rest
          ⟨k.outcome, k.calls + 1, d :: k.sleeps⟩
        else ⟨.raised (.httpError c hdr), 1, []⟩
    | .transport =>
      if retryCount + 1 ≤ maxRetries then
        let d := min (initialDelay * 2 ^ retryCount) maxDelay
        let k := callRemoteApi maxRetries initialDelay maxDelay
          (retryCount + 1) rest
        ⟨k.outcome, k.calls + 1, d :: k.sleeps⟩
      else ⟨.raised .transportError, 1, []⟩

/-- `self.max_retries = 3` (remote_transcriber.py line 173). -/
def adapterMaxRetries : ℕ := 3

/-- `self.initial_retry_delay = 1.0` (remote_transcriber.py line 174). -/
def adapterInitialDelay : ℚ := 1

/-- `self.max_retry_delay = 10.0` (remote_transcriber.py line 175). -/
def adapterMaxDelay : ℚ := 10

/-- `_call_remote_api` with the adapter's fixed retry configuration, started
at `retry_count = 0`. -/
def runCallRemoteApi {α : Type} (oracle : List (CallResult α)) : ApiRun α :=
  callRemoteApi adapterMaxRetries adapterInitialDelay adapterMaxDelay 0 oracle

/-! ## Decode loop and response shaping (`transcribe_audio`, main.py 477-625)

The opaque speech decoder is modelled as a function `decoder : ℚ → DecodeResult`
giving, for each decoding temperature, the segments and the language reported
by `model.transcribe`. -/

/-- One segment as returned by the decoder (`faster_whisper` `Segment`). -/
structure RawSeg where
  start : ℚ
  stop : ℚ
  text : String
  avg_logprob : ℚ
  compression_ratio : ℚ
  no_speech_prob : ℚ
deriving Repr, DecidableEq

/-- One decoder invocation's result: the materialized segment list and
`info.language`. -/
structure DecodeResult where
  segs : List RawSeg
  infoLanguage : String
deriving Repr, DecidableEq

/-- A segment dict as built by the server (main.py lines 556-570): `seek` is
always 0, `tokens` empty, `audio_start`/`audio_end` duplicate `start`/`end`. -/
structure Seg where
  id : ℕ
  seek : ℕ
  start : ℚ
  stop : ℚ
  text : String
  temperature : ℚ
  avg_logprob : ℚ
  compression_ratio : ℚ
  no_speech_prob : ℚ
  audio_start : ℚ
  audio_end : ℚ
deriving Repr, DecidableEq

/-- Shape the decoder's segments into response segments, numbering them from
`idx` (the `enumerate` of main.py line 555). -/
def shapeSegmentsFrom (t : ℚ) : ℕ → List RawSeg → List Seg
  | _, [] => []
  | idx, s :: rest =>
    { id := idx, seek := 0, start := s.start, stop := s.stop, text := s.text,
      temperature := t, avg_logprob := s.avg_logprob,
      compression_ratio := s.compression_ratio,
      no_speech_prob := s.no_speech_prob,
      audio_start := s.start, audio_end := s.stop } ::
      shapeSegmentsFrom t (idx + 1) rest

/-- Shape the decoder's segments into response segments (main.py 554-570). -/
def shapeSegments (t : ℚ) (raw : List RawSeg) : List Seg :=
  shapeSegmentsFrom t 0 raw

/-- `_looks_like_silence` (main.py lines 105-115): empty list, or every
segment has `no_speech_prob > NO_SPEECH_THRESHOLD` and
`avg_logprob < LOG_PROB_THRESHOLD`. -/
def looksLikeSilence (cfg : Config) (segs : List Seg) : Bool :=
  segs.all fun s =>
    decide (s.no_speech_prob > cfg.noSpeechThreshold ∧
      s.avg_logprob < cfg.logProbThreshold)

/-- `_looks_like_hallucination` (main.py lines 117-124): some segment has
`compression_ratio > COMPRESSION_RATIO_THRESHOLD` or
`avg_logprob < LOG_PROB_THRESHOLD`. -/
def looksLikeHallucination (cfg : Config) (segs : List Seg) : Bool :=
  segs.any fun s =>
    decide (s.compression_ratio > cfg.compressionRatioThreshold ∨
      s.avg_logprob < cfg.logProbThreshold)

/-- Python's `str.strip()`: drop whitespace from both ends.  (A structurally
recursive model of the library function.) -/
def pyStrip (s : String) : String :=
  ⟨(((s.data.dropWhile Char.isWhitespace).reverse).dropWhile
      Char.isWhitespace).reverse⟩

/-- Python's `" ".join(...)`.  (A structurally recursive model.) -/
def pyJoin : List String → String
  | [] => ""
  | [t] => t
  | t :: rest => t ++ " " ++ pyJoin rest

/-- `" ".join([s["text"].strip() for s in segments]).strip()`
(main.py lines 581, 593). -/
def joinStrip (segs : List Seg) : String :=
  pyStrip (pyJoin (segs.map fun s => pyStrip s.text))

/-- `segments[-1]["end"] if segments else 0.0` (main.py lines 582, 594). -/
def lastStop (segs : List Seg) : ℚ :=
  match segs.getLast? with
  | some s => s.stop
  | none => 0

/-- `TEMPERATURE_FALLBACK_CHAIN = [0.0, 0.2, 0.4, 0.6, 0.8, 1.0]`
(main.py line 103). -/
def temperatureFallbackChain : List ℚ := [0, 1/5, 2/5, 3/5, 4/5, 1]

/-- `temps = TEMPERATURE_FALLBACK_CHAIN if USE_TEMPERATURE_FALLBACK else
[requested_temp]` (main.py line 513). -/
def tempsFor (cfg : Config) (requestedTemp : ℚ) : List ℚ :=
  if cfg.useTemperatureFallback then temperatureFallbackChain
  else [requestedTemp]

/-- The selected transcription: `(full_text, language, duration, segments)`
as carried in the `best` tuple (main.py line 520). -/
structure Best where
  fullText : String
  language : String
  duration : ℚ
  segments : List Seg
deriving Repr, DecidableEq

/-- The `for t in temps:` loop of `transcribe_audio` (main.py lines 524-587).
Returns `best` (none when every attempt was rejected), together with
`last_segments` and `last_info.language` of the last attempt made.
A silence attempt (main.py 573-576) or an accepted attempt (580-585) breaks
out of the loop; a hallucinated attempt moves on to the next temperature. -/
def runTemps (cfg : Config) (decoder : ℚ → DecodeResult) :
    List ℚ → Option Best × List Seg × Option String
  | [] => (none, [], none)
  | t :: ts =>
    let r := decoder t
    let segs := shapeSegments t r.segs
    if looksLikeSilence cfg segs then
      (some ⟨"", r.infoLanguage, 0, []⟩, segs, some r.infoLanguage)
    else if ¬looksLikeHallucination cfg segs then
      (some ⟨joinStrip segs, r.infoLanguage, lastStop segs, segs⟩,
        segs, some r.infoLanguage)
    else
      match ts with
      | [] => (none, segs, some r.infoLanguage)
      | _ :: _ => runTemps cfg decoder ts

/-- The JSON body of a 200 response (main.py lines 615-621). -/
structure TResponse where
  text : String
  language : String
  language_probability : ℚ
  duration : ℚ
  segments : List Seg
deriving Repr, DecidableEq

/-- Language-hint selection after auto-detection (main.py lines 479-509).
Input: the request's optional `language` form field and, when it is absent,
the result of `_detect_language_improved`.  Output: the language hint passed
to the decoder and the `auto_detect_low_confidence` flag. -/
def applyDetection (language : Option String) (det : String × ℚ) :
    Option String × Bool :=
  match language with
  | some l => (some l, false)
  | none =>
    if det.2 > 0 then
      if det.1 = "en" ∧ det.2 < 13/20 then (none, true)
      else (some det.1, false)
    else (none, true)

/-- Finalization of the decode loop (main.py lines 589-596): the accepted
attempt, or a fallback built from the last attempt when every temperature was
rejected.  `language` is the (possibly detection-updated) language hint in
scope at line 595. -/
def chosenBest (cfg : Config) (language : Option String)
    (decoder : ℚ → DecodeResult) (temps : List ℚ) : Best :=
  match runTemps cfg decoder temps with
  | (some b, _, _) => b
  | (none, lastSegs, lastLang) =>
    { fullText := joinStrip lastSegs,
      language := match lastLang with
        | some l => l
        | none => language.getD "unknown",
      duration := lastStop lastSegs,
      segments := lastSegs }

/-- The low-confidence English guard applied to the chosen transcription
(main.py lines 597-621). -/
def serveCore (cfg : Config) (language : Option String)
    (autoDetectLowConfidence : Bool) (decoder : ℚ → DecodeResult)
    (temps : List ℚ) : TResponse :=
  let best := chosenBest cfg language decoder temps
  if autoDetectLowConfidence ∧ best.language = "en" then
    { text := best.fullText, language := "unknown", language_probability := 0,
      duration := best.duration, segments := best.segments }
  else
    { text := best.fullText, language := best.language,
      language_probability := 1,
      duration := best.duration, segments := best.segments }

/-- End-to-end model of a 200 request through `transcribe_audio`:
`languageField` is the request's `language` form field, `det` the detector's
result (consulted only when the field is absent), `decoderAt` the opaque
decoder as a function of the language hint and the temperature, and
`requestedTemp` the parsed `temperature` field. -/
def serve (cfg : Config) (languageField : Option String) (det : String × ℚ)
    (decoderAt : Option String → ℚ → DecodeResult) (requestedTemp : ℚ) :
    TResponse :=
  serveCore cfg (applyDetection languageField det).1
    (applyDetection languageField det).2
    (decoderAt (applyDetection languageField det).1)
    (tempsFor cfg requestedTemp)

/-- The language hint `serve` passes to the decoder. -/
def serveHint (languageField : Option String) (det : String × ℚ) :
    Option String :=
  (applyDetection languageField det).1

/-! ## Language detection (`_detect_language_improved`, main.py lines 139-270)

The decoder's language probe is opaque: the embedding's input is the list of
per-window probe results (the `segment_language_probs` lists after token
stripping, in probe order), one entry per audio window of at least 0.5 s.
The audio slicing itself (lines 158-182) is not modelled. -/

/-- One probe result: `(language, probability)` pairs as the decoder returns
them (ordered by decreasing probability in practice; the code relies on the
first two entries being top and runner-up). -/
abbrev ProbList := List (String × ℚ)

/-- Per-language accumulated probabilities (`language_prob_aggregator`), as an
insertion-ordered association list — Python dicts preserve insertion order,
which `max(..., key=...)` then iterates, keeping the first maximum. -/
abbrev LangAgg := List (String × List ℚ)

/-- Mean of an accumulator entry's probabilities (entries are nonempty). -/
def avgOf (ps : List ℚ) : ℚ := ps.sum / ps.length

/-- First entry maximizing `f` — the behavior of Python's
`max(dict, key=...)` over an insertion-ordered dict (ties keep the earlier
key, since later entries replace only on strict improvement). -/
def argmaxBy (f : List ℚ → ℚ) : LangAgg → Option (String × List ℚ)
  | [] => none
  | x :: xs => some (xs.foldl (fun best y => if f y.2 > f best.2 then y else best) x)

/-- Append one probability to a language's accumulator entry, creating the
entry at the end when absent (`setdefault(lang, []).append(prob)`). -/
def aggAdd (agg : LangAgg) (lang : String) (p : ℚ) : LangAgg :=
  if agg.any fun e => e.1 = lang then
    agg.map fun e => if e.1 = lang then (e.1, e.2 ++ [p]) else e
  else agg ++ [(lang, [p])]

/-- Accumulate every pair of a probe result with probability ≥ 0.1
(main.py lines 219-221). -/
def aggAddChunk (agg : LangAgg) (chunk : ProbList) : LangAgg :=
  chunk.foldl (fun a q => if q.2 ≥ 1/10 then aggAdd a q.1 q.2 else a) agg

/-- The per-window filters of main.py lines 198-217: skip an empty result,
one whose maximal probability is below 0.4, or (when a runner-up exists) one
that is uncertain: `(top - second < 0.12 and top < 0.45) or top < 0.3`. -/
def chunkAccepted (chunk : ProbList) : Bool :=
  match chunk with
  | [] => false
  | c0 :: rest =>
    let maxProb := rest.foldl (fun m q => max m q.2) c0.2
    if maxProb < 2/5 then false
    else
      match rest with
      | [] => true
      | c1 :: _ =>
        ¬((c0.2 - c1.2 < 3/25 ∧ c0.2 < 9/20) ∨ c0.2 < 3/10)

/-- The early-stop test run after each accepted window (main.py lines
224-239): with the accumulator populated, take the first language of maximal
average probability; stop — returning it with its average — when that average
strictly exceeds the threshold (relaxed to `max(0.4, threshold - 0.1)` once
three windows were accepted), at least two windows have been processed, and
the language has at least two supporting probabilities. -/
def earlyStopCheck (threshold : ℚ) (agg : LangAgg) (processed : ℕ) :
    Option (String × ℚ) :=
  match argmaxBy avgOf agg with
  | none => none
  | some (topLang, probs) =>
    let topAvg := avgOf probs
    let earlyStopThreshold :=
      if processed ≥ 3 then max (2/5) (threshold - 1/10) else threshold
    if topAvg > earlyStopThreshold ∧ processed ≥ 2 ∧ probs.length ≥ 2 then
      some (topLang, topAvg)
    else none

/-- The probe loop of `_detect_language_improved` (main.py lines 177-239).
State: the accumulator, the number of accepted windows, and the last probe
result seen (`all_language_probs`; the initial `None` and the empty list are
indistinguishable downstream, so both are `[]`). -/
def detectLoop (threshold : ℚ) :
    List ProbList → LangAgg → ℕ → ProbList →
    Option (String × ℚ) × LangAgg × ℕ × ProbList
  | [], agg, processed, last => (none, agg, processed, last)
  | chunk :: rest, agg, processed, last =>
    let _ := last
    if ¬chunkAccepted chunk then detectLoop threshold rest agg processed chunk
    else
      let agg' := aggAddChunk agg chunk
      let processed' := processed + 1
      match earlyStopCheck threshold agg' processed' with
      | some res => (some res, agg', processed', chunk)
      | none => detectLoop threshold rest agg' processed' chunk

/-- The weighted score `avg_prob * (0.7 + 0.3 * min(1, count / 3))` of one
accumulator entry (main.py lines 257-260). -/
def consistencyScore (ps : List ℚ) : ℚ :=
  avgOf ps * (7/10 + 3/10 * min 1 ((ps.length : ℚ) / 3))

/-- Final selection when the loop did not stop early (main.py lines 241-268):
with an empty accumulator fall back to the last probe's top candidate when its
probability is at least 0.5, else the `("en", 0.0)` sentinel; with a populated
accumulator pick the first language maximizing `consistencyScore` and return
it with its plain average probability, degraded to `("en", 0.0)` when that
average is below 0.5. -/
def detectFinalChoice (agg : LangAgg) (last : ProbList) : String × ℚ :=
  match agg with
  | [] =>
    match last with
    | [] => ("en", 0)
    | (l, p) :: _ => if p ≥ 1/2 then (l, p) else ("en", 0)
  | _ :: _ =>
    match argmaxBy consistencyScore agg with
    | none => ("en", 0)
    | some (lang, probs) =>
      let p := avgOf probs
      if p < 1/2 then ("en", 0) else (lang, p)

/-- `_detect_language_improved` over the probe results. -/
def detectLanguageImproved (threshold : ℚ) (chunks : List ProbList) :
    String × ℚ :=
  match detectLoop threshold chunks [] 0 [] with
  | (some res, _, _, _) => res
  | (none, agg, _, last) => detectFinalChoice agg last

/-- Modelled from the spec's words for comparison with the code: the claimed
early-stop test, which fires as soon as the top language's average REACHES
(≥) the threshold — relaxed by exactly 0.1 (no 0.4 floor) after three accepted
windows — with two supporting windows and two windows processed. -/
def earlyStopCheckClaim (threshold : ℚ) (agg : LangAgg) (processed : ℕ) :
    Option (String × ℚ) :=
  match argmaxBy avgOf agg with
  | none => none
  | some (topLang, probs) =>
    let topAvg := avgOf probs
    let earlyStopThreshold :=
      if processed ≥ 3 then threshold - 1/10 else threshold
    if topAvg ≥ earlyStopThreshold ∧ processed ≥ 2 ∧ probs.length ≥ 2 then
      some (topLang, topAvg)
    else none

/-- The probe loop under the claimed early-stop test. -/
def detectLoopClaim (threshold : ℚ) :
    List ProbList → LangAgg → ℕ → ProbList →
    Option (String × ℚ) × LangAgg × ℕ × ProbList
  | [], agg, processed, last => (none, agg, processed, last)
  | chunk :: rest, agg, processed, last =>
    let _ := last
    if ¬chunkAccepted chunk then detectLoopClaim threshold rest agg processed chunk
    else
      let agg' := aggAddChunk agg chunk
      let processed' := processed + 1
      match earlyStopCheckClaim threshold agg' processed' with
      | some res => (some res, agg', processed', chunk)
      | none => detectLoopClaim threshold rest agg' processed' chunk

/-- `_detect_language_improved` as the claim describes its early stopping. -/
def detectLanguageImprovedClaim (threshold : ℚ) (chunks : List ProbList) :
    String × ℚ :=
  match detectLoopClaim threshold chunks [] 0 [] with
  | (some res, _, _, _) => res
  | (none, agg, _, last) => detectFinalChoice agg last

/-! ## Adapter response normalization
(`RemoteTranscriber._response_to_segments`, remote_transcriber.py 398-512)

JSON values that may be absent or may fail `float()` are `Option (Option ℚ)`
as described in the header.  The `end` key is modelled by the field `stop`
(`end` is a Lean keyword), `audio_end` by `audio_stop`. -/

/-- One element of the API response's `segments` array, with the keys the
normalizer reads.  `avg_logprob` / `compression_ratio` are passed through
without conversion, so they are plain optional rationals. -/
structure ApiSegment where
  audio_start : Option (Option ℚ) := none
  audio_stop : Option (Option ℚ) := none
  start : Option (Option ℚ) := none
  stop : Option (Option ℚ) := none
  duration : Option (Option ℚ) := none
  seek : ℕ := 0
  text : String := ""
  avg_logprob : Option ℚ := none
  compression_ratio : Option ℚ := none
  no_speech_prob : Option (Option ℚ) := none
deriving Repr, DecidableEq

/-- The whole API response, with the keys the normalizer reads. -/
structure ApiResponse where
  segments : List ApiSegment := []
  text : String := ""
  duration : Option (Option ℚ) := none
  no_speech_prob : Option (Option ℚ) := none
  avg_logprob : Option ℚ := none
  compression_ratio : Option ℚ := none
deriving Repr, DecidableEq

/-- `_to_float(value, default=None)` (remote_transcriber.py lines 69-75)
over a present-or-parseable encoded value. -/
def toFloatOpt : Option (Option ℚ) → Option ℚ
  | none => none
  | some none => none
  | some (some q) => some q

/-- `_clamp_probability` (remote_transcriber.py lines 78-93): parse failure
gives 0, a value above 1 is cut to 1, the rest is clamped to `[0, 1]`. -/
def clampProbability : Option ℚ → ℚ
  | none => 0
  | some v => if v > 1 then 1 else max 0 (min 1 v)

/-- A normalized `Segment` as the adapter hands it upstream. -/
structure NormSeg where
  id : ℕ
  seek : ℕ
  start : ℚ
  stop : ℚ
  text : String
  avg_logprob : ℚ
  compression_ratio : ℚ
  no_speech_prob : ℚ
  temperature : ℚ
deriving Repr, DecidableEq

/-- The `start` computation (remote_transcriber.py lines 458-466): the
`audio_start` value when the key is present, else the `start` value, else 0;
`_to_float(…, default=0.0)` turns an unparseable present value into 0. -/
def segStartOf (s : ApiSegment) : ℚ :=
  match s.audio_start with
  | some (some q) => q
  | some none => 0
  | none =>
    match s.start with
    | some (some q) => q
    | some none => 0
    | none => 0

/-- The raw `end` value before repair (remote_transcriber.py lines 459-467):
`audio_end` when present, else `end`, then `_to_float(…, default=None)`. -/
def segStopRaw (s : ApiSegment) : Option ℚ :=
  match s.audio_stop with
  | some v => v
  | none =>
    match s.stop with
    | some v => v
    | none => none

/-- `end is None or end <= start`: the guard rerun before each repair step. -/
def stopUnusable (start : ℚ) : Option ℚ → Bool
  | none => true
  | some e => e ≤ start

/-- The value of `end` after the segment-duration repair step
(remote_transcriber.py lines 469-472): an unusable raw `end` is replaced by
`start + duration` when the segment carries a positive `duration`. -/
def stopAfterDuration (s : ApiSegment) (start : ℚ) : Option ℚ :=
  if stopUnusable start (segStopRaw s) then
    match toFloatOpt s.duration with
    | some d => if 0 < d then some (start + d) else segStopRaw s
    | none => segStopRaw s
  else segStopRaw s

/-- The value of `end` after the total-duration repair step
(remote_transcriber.py lines 474-480). -/
def stopAfterTotal (totalDuration : Option ℚ) (s : ApiSegment) (start : ℚ) :
    Option ℚ :=
  if stopUnusable start (stopAfterDuration s start) then
    match totalDuration with
    | some td =>
      if 0 < td then some (if 0 < start then min td (start + td) else td)
      else some (start + 1/2)
    | none => some (start + 1/2)
  else stopAfterDuration s start

/-- The final `end` value with the last-resort guard applied
(remote_transcriber.py lines 482-483). -/
def resolveStop (totalDuration : Option ℚ) (s : ApiSegment) (start : ℚ) : ℚ :=
  match stopAfterTotal totalDuration s start with
  | none => start + 1/2
  | some e => if e ≤ start then start + 1/2 else e

/-- The clamped value of `api_seg.get("no_speech_prob", 0.0)`
(remote_transcriber.py lines 487-488). -/
def segClampedNsp (s : ApiSegment) : ℚ :=
  clampProbability (match s.no_speech_prob with
    | none => some 0
    | some v => v)

/-- The `no_speech_prob` computation for one API segment (remote_transcriber.py
lines 487-495): clamp `api_seg.get("no_speech_prob", 0.0)` to `[0, 1]`, then
override a clamped value still at or above 1 with 0.1 when the segment's text
is nonempty after stripping. -/
def segNoSpeechProb (s : ApiSegment) : ℚ :=
  if segClampedNsp s ≥ 1 ∧ pyStrip s.text ≠ "" then 1/10 else segClampedNsp s

/-- Normalization of one API segment (remote_transcriber.py lines 453-510). -/
def normalizeSegment (temperature : ℚ) (totalDuration : Option ℚ)
    (segmentIdStart idx : ℕ) (s : ApiSegment) : NormSeg :=
  let start := segStartOf s
  { id := segmentIdStart + idx, seek := s.seek,
    start := start, stop := resolveStop totalDuration s start,
    text := s.text,
    avg_logprob := s.avg_logprob.getD (-(1/2)),
    compression_ratio := s.compression_ratio.getD 1,
    no_speech_prob := segNoSpeechProb s,
    temperature := temperature }

/-- `_response_to_segments` (remote_transcriber.py lines 398-512).  With no
`segments` array but nonempty stripped `text`, a single segment is
synthesized spanning `[0, duration]` — or `[0, len(text) * 0.1]` when the
response's duration is absent or nonpositive. -/
def responseToSegments (temperature : ℚ) (resp : ApiResponse)
    (segmentIdStart : ℕ) : List NormSeg :=
  match resp.segments with
  | [] =>
    if pyStrip resp.text ≠ "" then
      let duration : ℚ := match resp.duration with
        | some (some d) => d
        | _ => 0
      let clamped := clampProbability (match resp.no_speech_prob with
        | none => some 0
        | some v => v)
      let nsp := if clamped ≥ 1 then 1/10 else clamped
      [{ id := segmentIdStart, seek := 0, start := 0,
         stop := if 0 < duration then duration else (resp.text.length : ℚ) / 10,
         text := resp.text,
         avg_logprob := resp.avg_logprob.getD (-(1/2)),
         compression_ratio := resp.compression_ratio.getD 1,
         no_speech_prob := nsp, temperature := temperature }]
    else []
  | segs =>
    let totalDuration := toFloatOpt resp.duration
    segs.enum.map fun (idx, s) =>
      normalizeSegment temperature totalDuration segmentIdStart idx s

/-! ## Theorems -/

/-- C1: with fail-fast enabled, a request arriving while all admission slots
are held or the waiting counter is nonzero gets a 503 with
`Retry-After = max(1, BUSY_RETRY_AFTER_S)`, without incrementing the waiting
counter or touching the semaphore; otherwise a full queue
(`waiting ≥ MAX_QUEUE_SIZE`) gets the same 503; otherwise the request
increments the waiting counter and proceeds. -/
theorem c1_admission_control (cfg : Config) (locked : Bool) (waiting : ℕ)
    (path : ExitPath) :
    (cfg.failFastWhenBusy = true ∧ (locked = true ∨ 0 < waiting) →
      admissionCheck cfg locked waiting =
        (.rejectBusy (max 1 cfg.busyRetryAfterS), waiting) ∧
      requestEvents cfg locked waiting path =
        [.httpReject 503 (max 1 cfg.busyRetryAfterS)]) ∧
    (¬(cfg.failFastWhenBusy = true ∧ (locked = true ∨ 0 < waiting)) →
      cfg.maxQueueSize ≤ waiting →
      admissionCheck cfg locked waiting =
        (.rejectQueueFull (max 1 cfg.busyRetryAfterS), waiting) ∧
      requestEvents cfg locked waiting path =
        [.httpReject 503 (max 1 cfg.busyRetryAfterS)]) ∧
    (¬(cfg.failFastWhenBusy = true ∧ (locked = true ∨ 0 < waiting)) →
      waiting < cfg.maxQueueSize →
      admissionCheck cfg locked waiting = (.admitted, waiting + 1)) := by
  refine ⟨fun h => ?_, fun h hfull => ?_, fun h hroom => ?_⟩
  · rw [admissionCheck, if_pos (by simpa using h)]
    refine ⟨rfl, ?_⟩
    rw [requestEvents, admissionCheck, if_pos (by simpa using h)]
  · rw [admissionCheck, if_neg (by simpa using h), if_pos hfull]
    refine ⟨rfl, ?_⟩
    rw [requestEvents, admissionCheck, if_neg (by simpa using h), if_pos hfull]
  · rw [admissionCheck, if_neg (by simpa using h), if_neg (by omega)]

/-- C1 witness: with the default configuration, a request arriving while the
semaphore is locked is rejected with a 503 carrying `Retry-After 1`, leaving
the waiting counter at 0 and producing no semaphore events. -/
theorem c1_admission_control_witness :
    admissionCheck {} true 0 = (.rejectBusy 1, 0) ∧
    requestEvents {} true 0 .success = [.httpReject 503 1] := by
  simpa using (c1_admission_control {} true 0 .success).1 ⟨rfl, Or.inl rfl⟩

/-- C2: an admitted request acquires exactly one admission slot and releases
exactly one slot on every exit path (success, 400 on malformed audio, 500 on a
decoder exception); a request rejected with 503 at admission produces no
semaphore events at all; and in every reachable server state the number of
in-flight decoder invocations is at most `MAX_CONCURRENT_TRANSCRIPTIONS`. -/
theorem c2_slot_accounting :
    (∀ (cfg : Config) (locked : Bool) (waiting : ℕ) (path : ExitPath),
      (admissionCheck cfg locked waiting).1 = .admitted →
        acquireCount (requestEvents cfg locked waiting path) = 1 ∧
        releaseCount (requestEvents cfg locked waiting path) = 1) ∧
    (∀ (cfg : Config) (locked : Bool) (waiting : ℕ) (path : ExitPath),
      (admissionCheck cfg locked waiting).1 ≠ .admitted →
        acquireCount (requestEvents cfg locked waiting path) = 0 ∧
        releaseCount (requestEvents cfg locked waiting path) = 0) ∧
    (∀ (cfg : Config) (s : SrvState),
      Reachable cfg s → s.inflight ≤ cfg.maxConcurrent) := by
  refine ⟨fun cfg locked waiting path h => ?_,
    fun cfg locked waiting path h => ?_, fun cfg s h => ?_⟩
  · rw [requestEvents]
    rcases hd : (admissionCheck cfg locked waiting).1 with r | r | _
    · rw [hd] at h; exact absurd h (by simp)
    · rw [hd] at h; exact absurd h (by simp)
    · simp [acquireCount, releaseCount]
  · rw [requestEvents]
    rcases hd : (admissionCheck cfg locked waiting).1 with r | r | _
    · simp [acquireCount, releaseCount]
    · simp [acquireCount, releaseCount]
    · exact absurd hd h
  · have := reachable_avail_add_inflight cfg s h
    omega

/-- C2 witness: a request admitted into an idle default server acquires and
releases exactly one slot on the malformed-audio path, a fail-fast rejected
request touches the semaphore zero times, and a concretely reachable state
with one in-flight request respects the bound of 2. -/
theorem c2_slot_accounting_witness :
    (acquireCount (requestEvents {} false 0 .badAudio) = 1 ∧
      releaseCount (requestEvents {} false 0 .badAudio) = 1) ∧
    (acquireCount (requestEvents {} true 0 .success) = 0 ∧
      releaseCount (requestEvents {} true 0 .success) = 0) ∧
    (⟨1, 1, 0⟩ : SrvState).inflight ≤ ({} : Config).maxConcurrent := by
  refine ⟨c2_slot_accounting.1 {} false 0 .badAudio (by decide),
    c2_slot_accounting.2.1 {} true 0 .success (by decide),
    c2_slot_accounting.2.2 {} ⟨1, 1, 0⟩ ?_⟩
  exact Reachable.step
    (Reachable.step Reachable.init (Step.enqueue 2 0 0 (by decide)))
    (Step.acquire 1 0 0)

/-- A retryable failure with retries left: one more call is made after the
back-off sleep `min(initial * 2 ** retry_count, max_delay)`. -/
theorem callRemoteApi_retry_step {α : Type} (r : CallResult α)
    (rest : List (CallResult α)) (rc : ℕ) (hr : r.isRetryable = true)
    (hrc : rc + 1 ≤ adapterMaxRetries) :
    callRemoteApi adapterMaxRetries adapterInitialDelay adapterMaxDelay rc
        (r :: rest) =
      ⟨(callRemoteApi adapterMaxRetries adapterInitialDelay adapterMaxDelay
          (rc + 1) rest).outcome,
       (callRemoteApi adapterMaxRetries adapterInitialDelay adapterMaxDelay
          (rc + 1) rest).calls + 1,
       min (adapterInitialDelay * 2 ^ rc) adapterMaxDelay ::
         (callRemoteApi adapterMaxRetries adapterInitialDelay adapterMaxDelay
            (rc + 1) rest).sleeps⟩ := by
  cases r with
  | success body => simp [CallResult.isRetryable] at hr
  | status c hdr =>
    have hc : ¬(c = 429 ∨ c = 503) := by
      simpa [CallResult.isRetryable] using hr
    rw [callRemoteApi, if_neg hc, if_pos hrc]
  | transport =>
    rw [callRemoteApi, if_pos hrc]

/-- A retryable failure with no retries left re-raises that failure's error
after exactly one call and no sleep. -/
theorem callRemoteApi_retry_exhausted {α : Type} (r : CallResult α)
    (rest : List (CallResult α)) (rc : ℕ) (hr : r.isRetryable = true)
    (hrc : ¬rc + 1 ≤ adapterMaxRetries) :
    callRemoteApi adapterMaxRetries adapterInitialDelay adapterMaxDelay rc
        (r :: rest) = ⟨.raised r.toErr, 1, []⟩ := by
  cases r with
  | success body => simp [CallResult.isRetryable] at hr
  | status c hdr =>
    have hc : ¬(c = 429 ∨ c = 503) := by
      simpa [CallResult.isRetryable] using hr
    rw [callRemoteApi, if_neg hc, if_neg hrc]
    rfl
  | transport =>
    rw [callRemoteApi, if_neg hrc]
    rfl

/-- C3: a 429 or 503 response makes the adapter raise a typed Overloaded
error carrying that status and the `Retry-After` header parsed as a float,
after exactly one HTTP call and with no back-off sleep, regardless of retry
budget left; the retry-after value defaults to 1.0 when the header is absent
or unparseable. -/
theorem c3_overload_propagation :
    (∀ (α : Type) (retryCount c : ℕ) (hdr : Option (Option ℚ))
        (rest : List (CallResult α)),
      c = 429 ∨ c = 503 →
      callRemoteApi adapterMaxRetries adapterInitialDelay adapterMaxDelay
          retryCount (CallResult.status c hdr :: rest) =
        ⟨.overloaded c (retryAfterOf hdr), 1, []⟩) ∧
    retryAfterOf none = 1 ∧ retryAfterOf (some none) = 1 := by
  refine ⟨fun α retryCount c hdr rest hc => ?_, rfl, rfl⟩
  rw [callRemoteApi, if_pos hc]

/-- C3 witness: a first call answered 503 with `Retry-After: 2` raises
Overloaded with status 503 and retry-after 2 after one call, never consuming
the rest of the transport oracle. -/
theorem c3_overload_propagation_witness :
    callRemoteApi (α := Unit) adapterMaxRetries adapterInitialDelay
        adapterMaxDelay 0 [.status 503 (some (some 2)), .transport] =
      ⟨.overloaded 503 2, 1, []⟩ :=
  c3_overload_propagation.1 Unit 0 503 (some (some 2)) [.transport]
    (Or.inr rfl)

/-- C4: errors other than 429/503 and transport errors are retried up to 3
times with back-off sleeps 1 s, 2 s, 4 s (`min(1.0 * 2 ** (k-1), 10.0)`
before the k-th retry), the final failure re-raising the last error after 4
calls; and a call failing twice with 500 then succeeding returns the
successful body after exactly 3 calls with sleeps 1 s and 2 s. -/
theorem c4_retry_policy :
    (∀ (α : Type) (r1 r2 r3 r4 : CallResult α),
      r1.isRetryable = true → r2.isRetryable = true →
      r3.isRetryable = true → r4.isRetryable = true →
      runCallRemoteApi [r1, r2, r3, r4] =
        ⟨.raised r4.toErr, 4, [1, 2, 4]⟩) ∧
    (∀ (α : Type) (h1 h2 : Option (Option ℚ)) (body : α),
      runCallRemoteApi [.status 500 h1, .status 500 h2, .success body] =
        ⟨.ok body, 3, [1, 2]⟩) := by
  constructor
  · intro α r1 r2 r3 r4 h1 h2 h3 h4
    rw [runCallRemoteApi,
      callRemoteApi_retry_step r1 _ 0 h1 (by norm_num [adapterMaxRetries]),
      callRemoteApi_retry_step r2 _ 1 h2 (by norm_num [adapterMaxRetries]),
      callRemoteApi_retry_step r3 _ 2 h3 (by norm_num [adapterMaxRetries]),
      callRemoteApi_retry_exhausted r4 _ 3 h4
        (by norm_num [adapterMaxRetries])]
    norm_num [adapterInitialDelay, adapterMaxDelay]
  · intro α h1 h2 body
    have h500 : ∀ hdr, (CallResult.status (α := α) 500 hdr).isRetryable = true := by
      intro hdr; simp [CallResult.isRetryable]
    rw [runCallRemoteApi,
      callRemoteApi_retry_step _ _ 0 (h500 h1) (by norm_num [adapterMaxRetries]),
      callRemoteApi_retry_step _ _ 1 (h500 h2) (by norm_num [adapterMaxRetries])]
    norm_num [adapterInitialDelay, adapterMaxDelay, callRemoteApi]

/-- C4 witness: four straight transport failures are retried with sleeps
1 s, 2 s, 4 s and the last error re-raised after 4 calls; two 500s followed
by a success return the body after 3 calls with sleeps 1 s, 2 s. -/
theorem c4_retry_policy_witness :
    runCallRemoteApi (α := Unit) [.transport, .transport, .transport, .transport] =
      ⟨.raised .transportError, 4, [1, 2, 4]⟩ ∧
    runCallRemoteApi [.status 500 none, .status 500 none, .success ()] =
      ⟨.ok (), 3, [1, 2]⟩ :=
  ⟨c4_retry_policy.1 Unit .transport .transport .transport .transport
      rfl rfl rfl rfl,
    c4_retry_policy.2 Unit none none ()⟩

/-- Every shaped segment carries the temperature of its attempt. -/
theorem shapeSegmentsFrom_temperature (t : ℚ) (raw : List RawSeg) :
    ∀ (idx : ℕ), ∀ s ∈ shapeSegmentsFrom t idx raw, s.temperature = t := by
  induction raw with
  | nil => intro idx s hs; simp [shapeSegmentsFrom] at hs
  | cons head tail ih =>
    intro idx s hs
    rw [shapeSegmentsFrom] at hs
    rcases List.mem_cons.mp hs with rfl | h
    · rfl
    · exact ih (idx + 1) s h

/-- Every shaped segment carries the temperature of its attempt. -/
theorem shapeSegments_temperature (t : ℚ) (raw : List RawSeg) :
    ∀ s ∈ shapeSegments t raw, s.temperature = t :=
  shapeSegmentsFrom_temperature t raw 0

/-- A silence attempt ends the loop at once with the empty transcription. -/
theorem runTemps_silence (cfg : Config) (decoder : ℚ → DecodeResult)
    (t : ℚ) (ts : List ℚ)
    (h : looksLikeSilence cfg (shapeSegments t (decoder t).segs) = true) :
    runTemps cfg decoder (t :: ts) =
      (some ⟨"", (decoder t).infoLanguage, 0, []⟩,
        shapeSegments t (decoder t).segs, some (decoder t).infoLanguage) := by
  simp [runTemps, h]

/-- A non-silence, non-hallucinated attempt ends the loop with the joined
text, the last segment's end as duration, and its own segments. -/
theorem runTemps_accepted (cfg : Config) (decoder : ℚ → DecodeResult)
    (t : ℚ) (ts : List ℚ)
    (h1 : looksLikeSilence cfg (shapeSegments t (decoder t).segs) = false)
    (h2 : looksLikeHallucination cfg (shapeSegments t (decoder t).segs) = false) :
    runTemps cfg decoder (t :: ts) =
      (some ⟨joinStrip (shapeSegments t (decoder t).segs),
          (decoder t).infoLanguage,
          lastStop (shapeSegments t (decoder t).segs),
          shapeSegments t (decoder t).segs⟩,
        shapeSegments t (decoder t).segs, some (decoder t).infoLanguage) := by
  simp [runTemps, h1, h2]

/-- A hallucinated (non-silence) attempt moves on to the next temperature. -/
theorem runTemps_rejected_cons (cfg : Config) (decoder : ℚ → DecodeResult)
    (t : ℚ) (ts : List ℚ) (hts : ts ≠ [])
    (h1 : looksLikeSilence cfg (shapeSegments t (decoder t).segs) = false)
    (h2 : looksLikeHallucination cfg (shapeSegments t (decoder t).segs) = true) :
    runTemps cfg decoder (t :: ts) = runTemps cfg decoder ts := by
  cases ts with
  | nil => exact absurd rfl hts
  | cons t' ts' => simp [runTemps, h1, h2]

/-- A hallucinated last attempt leaves no accepted result but records the
attempt as the loop's last. -/
theorem runTemps_rejected_last (cfg : Config) (decoder : ℚ → DecodeResult)
    (t : ℚ)
    (h1 : looksLikeSilence cfg (shapeSegments t (decoder t).segs) = false)
    (h2 : looksLikeHallucination cfg (shapeSegments t (decoder t).segs) = true) :
    runTemps cfg decoder [t] =
      (none, shapeSegments t (decoder t).segs, some (decoder t).infoLanguage) := by
  simp [runTemps, h1, h2]

/-- After a prefix of rejected (hallucinated, non-silence) attempts, the first
clean attempt's transcription is the loop's result. -/
theorem runTemps_first_accepted (cfg : Config) (decoder : ℚ → DecodeResult)
    (post : List ℚ) (t : ℚ) :
    ∀ pre : List ℚ,
    (∀ u ∈ pre,
      looksLikeSilence cfg (shapeSegments u (decoder u).segs) = false ∧
      looksLikeHallucination cfg (shapeSegments u (decoder u).segs) = true) →
    looksLikeSilence cfg (shapeSegments t (decoder t).segs) = false →
    looksLikeHallucination cfg (shapeSegments t (decoder t).segs) = false →
    runTemps cfg decoder (pre ++ t :: post) =
      (some ⟨joinStrip (shapeSegments t (decoder t).segs),
          (decoder t).infoLanguage,
          lastStop (shapeSegments t (decoder t).segs),
          shapeSegments t (decoder t).segs⟩,
        shapeSegments t (decoder t).segs, some (decoder t).infoLanguage) := by
  intro pre
  induction pre with
  | nil => intro _ h1 h2; exact runTemps_accepted cfg decoder t post h1 h2
  | cons u pre' ih =>
    intro hpre h1 h2
    have hu := hpre u (by simp)
    rw [List.cons_append,
      runTemps_rejected_cons cfg decoder u (pre' ++ t :: post)
        (by simp) hu.1 hu.2]
    exact ih (fun v hv => hpre v (by simp [hv])) h1 h2

/-- When every attempt is rejected as a hallucination, the loop ends with no
accepted result and the last attempt on record. -/
theorem runTemps_all_rejected (cfg : Config) (decoder : ℚ → DecodeResult)
    (t : ℚ) :
    ∀ pre : List ℚ,
    (∀ u ∈ pre ++ [t],
      looksLikeSilence cfg (shapeSegments u (decoder u).segs) = false ∧
      looksLikeHallucination cfg (shapeSegments u (decoder u).segs) = true) →
    runTemps cfg decoder (pre ++ [t]) =
      (none, shapeSegments t (decoder t).segs,
        some (decoder t).infoLanguage) := by
  intro pre
  induction pre with
  | nil =>
    intro h
    have ht := h t (by simp)
    exact runTemps_rejected_last cfg decoder t ht.1 ht.2
  | cons u pre' ih =>
    intro h
    have hu := h u (by simp)
    rw [List.cons_append,
      runTemps_rejected_cons cfg decoder u (pre' ++ [t]) (by simp) hu.1 hu.2]
    exact ih (fun v hv => h v (by simp [hv]))

/-- The English guard changes only the reported language and probability:
text, duration and segments always come from the chosen transcription. -/
theorem serveCore_fields (cfg : Config) (language : Option String)
    (autoLow : Bool) (decoder : ℚ → DecodeResult) (temps : List ℚ) :
    (serveCore cfg language autoLow decoder temps).text =
      (chosenBest cfg language decoder temps).fullText ∧
    (serveCore cfg language autoLow decoder temps).duration =
      (chosenBest cfg language decoder temps).duration ∧
    (serveCore cfg language autoLow decoder temps).segments =
      (chosenBest cfg language decoder temps).segments := by
  rw [serveCore]
  split <;> exact ⟨rfl, rfl, rfl⟩

/-- An accepted loop result is the chosen transcription. -/
theorem chosenBest_of_some (cfg : Config) (language : Option String)
    (decoder : ℚ → DecodeResult) (temps : List ℚ) (b : Best)
    (ls : List Seg) (ll : Option String)
    (h : runTemps cfg decoder temps = (some b, ls, ll)) :
    chosenBest cfg language decoder temps = b := by
  rw [chosenBest, h]

/-- A loop with no accepted result falls back to the last attempt. -/
theorem chosenBest_of_none (cfg : Config) (language : Option String)
    (decoder : ℚ → DecodeResult) (temps : List ℚ)
    (ls : List Seg) (l : String)
    (h : runTemps cfg decoder temps = (none, ls, some l)) :
    chosenBest cfg language decoder temps =
      ⟨joinStrip ls, l, lastStop ls, ls⟩ := by
  rw [chosenBest, h]

/-- C5: with `USE_TEMPERATURE_FALLBACK` the server walks temperatures
0.0, 0.2, 0.4, 0.6, 0.8, 1.0 in order (else decodes once at the requested
temperature); an attempt is rejected exactly when some segment has
`compression_ratio > COMPRESSION_RATIO_THRESHOLD` or
`avg_logprob < LOG_PROB_THRESHOLD`; among non-silence attempts, the first
non-rejected one is returned with the space-joined trimmed texts, the last
segment's end as duration and every segment carrying that attempt's
temperature; and when every attempt is rejected the last attempt's text,
duration and segments are emitted anyway. -/
theorem c5_temperature_fallback :
    (∀ (cfg : Config) (r : ℚ),
      tempsFor cfg r =
        if cfg.useTemperatureFallback then [0, 1/5, 2/5, 3/5, 4/5, 1]
        else [r]) ∧
    (∀ (cfg : Config) (segs : List Seg),
      looksLikeHallucination cfg segs = true ↔
        ∃ s ∈ segs, cfg.compressionRatioThreshold < s.compression_ratio ∨
          s.avg_logprob < cfg.logProbThreshold) ∧
    (∀ (cfg : Config) (decoder : ℚ → DecodeResult) (language : Option String)
        (autoLow : Bool) (pre post : List ℚ) (t : ℚ),
      (∀ u ∈ pre,
        looksLikeSilence cfg (shapeSegments u (decoder u).segs) = false ∧
        looksLikeHallucination cfg (shapeSegments u (decoder u).segs) = true) →
      looksLikeSilence cfg (shapeSegments t (decoder t).segs) = false →
      looksLikeHallucination cfg (shapeSegments t (decoder t).segs) = false →
      (serveCore cfg language autoLow decoder (pre ++ t :: post)).text =
        joinStrip (shapeSegments t (decoder t).segs) ∧
      (serveCore cfg language autoLow decoder (pre ++ t :: post)).duration =
        lastStop (shapeSegments t (decoder t).segs) ∧
      (serveCore cfg language autoLow decoder (pre ++ t :: post)).segments =
        shapeSegments t (decoder t).segs ∧
      ∀ s ∈ (serveCore cfg language autoLow decoder (pre ++ t :: post)).segments,
        s.temperature = t) ∧
    (∀ (cfg : Config) (decoder : ℚ → DecodeResult) (language : Option String)
        (autoLow : Bool) (pre : List ℚ) (t : ℚ),
      (∀ u ∈ pre ++ [t],
        looksLikeSilence cfg (shapeSegments u (decoder u).segs) = false ∧
        looksLikeHallucination cfg (shapeSegments u (decoder u).segs) = true) →
      (serveCore cfg language autoLow decoder (pre ++ [t])).text =
        joinStrip (shapeSegments t (decoder t).segs) ∧
      (serveCore cfg language autoLow decoder (pre ++ [t])).duration =
        lastStop (shapeSegments t (decoder t).segs) ∧
      (serveCore cfg language autoLow decoder (pre ++ [t])).segments =
        shapeSegments t (decoder t).segs) := by
  refine ⟨fun cfg r => rfl, fun cfg segs => ?_,
    fun cfg decoder language autoLow pre post t hpre h1 h2 => ?_,
    fun cfg decoder language autoLow pre t hall => ?_⟩
  · simp [looksLikeHallucination, List.any_eq_true]
  · have hrun := runTemps_first_accepted cfg decoder post t pre hpre h1 h2
    have hb := chosenBest_of_some cfg language decoder (pre ++ t :: post) _ _ _
      hrun
    have hf := serveCore_fields cfg language autoLow decoder (pre ++ t :: post)
    refine ⟨by rw [hf.1, hb], by rw [hf.2.1, hb], by rw [hf.2.2, hb], ?_⟩
    rw [hf.2.2, hb]
    exact shapeSegments_temperature t (decoder t).segs
  · have hrun := runTemps_all_rejected cfg decoder t pre hall
    have hb := chosenBest_of_none cfg language decoder (pre ++ [t]) _ _ hrun
    have hf := serveCore_fields cfg language autoLow decoder (pre ++ [t])
    exact ⟨by rw [hf.1, hb], by rw [hf.2.1, hb], by rw [hf.2.2, hb]⟩

/-- A configuration with the temperature-fallback chain enabled. -/
def fallbackDemoConfig : Config := { useTemperatureFallback := true }

/-- A decoder producing a hallucinated attempt (compression ratio 3) at
temperature 0 and a clean attempt (compression ratio 3/2) elsewhere. -/
def fallbackDemoDecoder : ℚ → DecodeResult := fun t =>
  if t = 0 then ⟨[⟨0, 2, "hello", -(1/10), 3, 0⟩], "en"⟩
  else ⟨[⟨0, 2, "hello", -(1/10), 3/2, 0⟩], "en"⟩

/-- The demo attempt at temperature 0 is a non-silence hallucination. -/
theorem fallbackDemo_rejected_at_zero :
    looksLikeSilence fallbackDemoConfig
        (shapeSegments 0 (fallbackDemoDecoder 0).segs) = false ∧
    looksLikeHallucination fallbackDemoConfig
        (shapeSegments 0 (fallbackDemoDecoder 0).segs) = true := by
  norm_num [fallbackDemoDecoder, fallbackDemoConfig, shapeSegments,
    shapeSegmentsFrom, looksLikeSilence, looksLikeHallucination]

/-- The demo attempt at temperature 0.2 is clean. -/
theorem fallbackDemo_clean_at_second :
    looksLikeSilence fallbackDemoConfig
        (shapeSegments (1/5) (fallbackDemoDecoder (1/5)).segs) = false ∧
    looksLikeHallucination fallbackDemoConfig
        (shapeSegments (1/5) (fallbackDemoDecoder (1/5)).segs) = false := by
  norm_num [fallbackDemoDecoder, fallbackDemoConfig, shapeSegments,
    shapeSegmentsFrom, looksLikeSilence, looksLikeHallucination]

/-- C5 witness: with fallback enabled and a decoder hallucinating at
temperature 0 but clean at 0.2, the chain is walked in order and the response
carries the 0.2 attempt's text, duration and segments, the segment's
`temperature` field being 0.2. -/
theorem c5_temperature_fallback_witness :
    tempsFor fallbackDemoConfig 0 = [0, 1/5, 2/5, 3/5, 4/5, 1] ∧
    (serveCore fallbackDemoConfig none false fallbackDemoDecoder
      ([0] ++ (1/5) :: [2/5, 3/5, 4/5, 1])).text = "hello" ∧
    (serveCore fallbackDemoConfig none false fallbackDemoDecoder
      ([0] ++ (1/5) :: [2/5, 3/5, 4/5, 1])).duration = 2 ∧
    (serveCore fallbackDemoConfig none false fallbackDemoDecoder
      ([0] ++ (1/5) :: [2/5, 3/5, 4/5, 1])).segments =
      [⟨0, 0, 0, 2, "hello", 1/5, -(1/10), 3/2, 0, 0, 2⟩] := by
  have h := c5_temperature_fallback.2.2.1 fallbackDemoConfig
    fallbackDemoDecoder none false [0] [2/5, 3/5, 4/5, 1] (1/5)
    (by
      intro u hu
      rw [List.mem_singleton] at hu
      subst hu
      exact fallbackDemo_rejected_at_zero)
    fallbackDemo_clean_at_second.1 fallbackDemo_clean_at_second.2
  refine ⟨?_, ?_, ?_, ?_⟩
  · rw [c5_temperature_fallback.1 fallbackDemoConfig 0]
    norm_num [fallbackDemoConfig]
  · rw [h.1]
    norm_num [fallbackDemoDecoder, shapeSegments, shapeSegmentsFrom, joinStrip,
      pyJoin]
    decide
  · rw [h.2.1]
    norm_num [fallbackDemoDecoder, shapeSegments, shapeSegmentsFrom, lastStop]
  · rw [h.2.2.1]
    norm_num [fallbackDemoDecoder, shapeSegments, shapeSegmentsFrom]

/-- C6 counterexample: on pure silence under auto-detect with the detection
rejected (0.0 sentinel) and the decoder reporting "en", the emitted response
reports language "unknown", not "en" as the claim states. -/
theorem c6_counterexample :
    serve {} none ("en", 0) (fun _ _ => ⟨[], "en"⟩) 0 =
      ⟨"", "unknown", 0, 0, []⟩ ∧ ("unknown" : String) ≠ "en" := by
  exact ⟨by decide, by decide⟩

/-- C6 (amended): an attempt whose segment list is empty, or whose every
segment has `no_speech_prob > NO_SPEECH_THRESHOLD` and
`avg_logprob < LOG_PROB_THRESHOLD`, is accepted immediately with empty text,
duration 0 and no segments, trying no further temperatures; a rejected
detection (probability 0) sets the low-confidence flag and passes no language
hint; and on the pure-silence path with the decoder reporting "en" the
response reports language "unknown" with probability 0.0. -/
theorem c6_silence_handling :
    (∀ (cfg : Config) (segs : List Seg),
      looksLikeSilence cfg segs = true ↔
        (segs = [] ∨ ∀ s ∈ segs, cfg.noSpeechThreshold < s.no_speech_prob ∧
          s.avg_logprob < cfg.logProbThreshold)) ∧
    (∀ (cfg : Config) (decoder : ℚ → DecodeResult) (t : ℚ) (ts : List ℚ),
      looksLikeSilence cfg (shapeSegments t (decoder t).segs) = true →
      runTemps cfg decoder (t :: ts) =
        (some ⟨"", (decoder t).infoLanguage, 0, []⟩,
          shapeSegments t (decoder t).segs, some (decoder t).infoLanguage)) ∧
    (∀ dl : String, applyDetection none (dl, 0) = (none, true)) ∧
    (∀ (cfg : Config) (decoder : ℚ → DecodeResult) (t : ℚ) (ts : List ℚ)
        (language : Option String),
      looksLikeSilence cfg (shapeSegments t (decoder t).segs) = true →
      (decoder t).infoLanguage = "en" →
      serveCore cfg language true decoder (t :: ts) =
        ⟨"", "unknown", 0, 0, []⟩) := by
  refine ⟨fun cfg segs => ?_, fun cfg decoder t ts h => ?_,
    fun dl => by simp [applyDetection],
    fun cfg decoder t ts language h hen => ?_⟩
  · simp only [looksLikeSilence, List.all_eq_true, decide_eq_true_eq]
    constructor
    · exact fun h => Or.inr h
    · rintro (rfl | h)
      · simp
      · exact h
  · exact runTemps_silence cfg decoder t ts h
  · have hb := chosenBest_of_some cfg language decoder (t :: ts)
      ⟨"", (decoder t).infoLanguage, 0, []⟩ _ _
      (runTemps_silence cfg decoder t ts h)
    rw [serveCore, hb, if_pos ⟨rfl, hen⟩]

/-- C6 witness: a silence attempt (empty segment list) under the rejected
auto-detect sentinel with the decoder reporting "en" yields the empty
response with language "unknown" and probability 0, independent of the
remaining fallback temperatures. -/
theorem c6_silence_handling_witness :
    looksLikeSilence {} [] = true ∧
    applyDetection none ("en", 0) = (none, true) ∧
    serveCore {} none true (fun _ => ⟨[], "en"⟩) (0 :: [1/5, 2/5]) =
      ⟨"", "unknown", 0, 0, []⟩ := by
  refine ⟨(c6_silence_handling.1 {} []).2 (Or.inl rfl),
    c6_silence_handling.2.2.1 "en",
    c6_silence_handling.2.2.2 {} (fun _ => ⟨[], "en"⟩) 0 [1/5, 2/5] none
      (by decide) rfl⟩

/-- The guard branch of `serveCore` when the low-confidence flag is set and
the chosen transcription's language is "en". -/
theorem serveCore_guard_true (cfg : Config) (language : Option String)
    (decoder : ℚ → DecodeResult) (temps : List ℚ)
    (hen : (chosenBest cfg language decoder temps).language = "en") :
    serveCore cfg language true decoder temps =
      ⟨(chosenBest cfg language decoder temps).fullText, "unknown", 0,
        (chosenBest cfg language decoder temps).duration,
        (chosenBest cfg language decoder temps).segments⟩ := by
  simp only [serveCore]
  rw [if_pos ⟨by trivial, hen⟩]

/-- The plain branch of `serveCore` when the guard does not apply. -/
theorem serveCore_guard_false (cfg : Config) (language : Option String)
    (autoLow : Bool) (decoder : ℚ → DecodeResult) (temps : List ℚ)
    (h : ¬(autoLow = true ∧
      (chosenBest cfg language decoder temps).language = "en")) :
    serveCore cfg language autoLow decoder temps =
      ⟨(chosenBest cfg language decoder temps).fullText,
        (chosenBest cfg language decoder temps).language, 1,
        (chosenBest cfg language decoder temps).duration,
        (chosenBest cfg language decoder temps).segments⟩ := by
  simp only [serveCore]
  rw [if_neg h]

/-- A decoder answering every probe with one clean segment and the given
reported language. -/
def borderlineDetDecoder (lang : String) :
    Option String → ℚ → DecodeResult :=
  fun _ _ => ⟨[⟨0, 2, "hi", -(1/10), 1, 0⟩], lang⟩

/-- The clean demo attempt is neither silence nor a hallucination. -/
theorem borderlineDetDecoder_clean (lang : String) :
    looksLikeSilence {}
        (shapeSegments 0 ((borderlineDetDecoder lang) none 0).segs) = false ∧
    looksLikeHallucination {}
        (shapeSegments 0 ((borderlineDetDecoder lang) none 0).segs) = false := by
  norm_num [borderlineDetDecoder, shapeSegments, shapeSegmentsFrom,
    looksLikeSilence, looksLikeHallucination, Config.noSpeechThreshold,
    Config.logProbThreshold, Config.compressionRatioThreshold]

/-- C7 counterexample: with auto-detection returning ("en", 0.60) the decoder
gets no language hint, but when the decoder then reports "fr" the response
carries "fr" with probability 1.0 — not "unknown" with 0.0 as the claim
states for every such request. -/
theorem c7_counterexample :
    serveHint none ("en", 3/5) = none ∧
    (serve {} none ("en", 3/5) (borderlineDetDecoder "fr") 0).language =
      "fr" ∧
    (serve {} none ("en", 3/5)
      (borderlineDetDecoder "fr") 0).language_probability = 1 := by
  have happ : applyDetection none ("en", 3/5) = (none, true) := by
    rw [applyDetection]
    norm_num
  have htemps : tempsFor {} 0 = [0] := by
    rw [tempsFor, if_neg (by decide)]
  have hclean := borderlineDetDecoder_clean "fr"
  have hrun := runTemps_accepted {} (borderlineDetDecoder "fr" none) 0 []
    hclean.1 hclean.2
  have hb := chosenBest_of_some {} none (borderlineDetDecoder "fr" none)
    [0] _ _ _ hrun
  have hserve : serve {} none ("en", 3/5) (borderlineDetDecoder "fr") 0 =
      serveCore {} none true (borderlineDetDecoder "fr" none) [0] := by
    rw [serve, happ, htemps]
  have hcore := serveCore_guard_false {} none true
    (borderlineDetDecoder "fr" none) [0]
    (by rw [hb]; simp [borderlineDetDecoder])
  refine ⟨by rw [serveHint, happ], ?_, ?_⟩
  · rw [hserve, hcore, hb]
    rfl
  · rw [hserve, hcore]

/-- C7 (amended): when auto-detection returns ("en", p) with 0 < p < 0.65,
the decoder is invoked with no language hint; and whenever the transcription
chosen for the response carries language "en", the response reports
language "unknown" with probability 0.0. -/
theorem c7_english_guard (cfg : Config) (det : String × ℚ) (p : ℚ)
    (decoderAt : Option String → ℚ → DecodeResult) (requestedTemp : ℚ)
    (hdet : det = ("en", p)) (hpos : 0 < p) (hlt : p < 13/20) :
    serveHint none det = none ∧
    ((chosenBest cfg none (decoderAt none) (tempsFor cfg requestedTemp)).language
        = "en" →
      (serve cfg none det decoderAt requestedTemp).language = "unknown" ∧
      (serve cfg none det decoderAt requestedTemp).language_probability = 0) := by
  subst hdet
  have happ : applyDetection none ("en", p) = (none, true) := by
    simp [applyDetection, hpos, hlt]
  constructor
  · rw [serveHint, happ]
  · intro hen
    have hserve : serve cfg none ("en", p) decoderAt requestedTemp =
        serveCore cfg none true (decoderAt none)
          (tempsFor cfg requestedTemp) := by
      rw [serve, happ]
    rw [hserve, serveCore_guard_true cfg none (decoderAt none)
      (tempsFor cfg requestedTemp) hen]
    exact ⟨rfl, rfl⟩

/-- C7 witness: detection ("en", 0.6) leaves the decoder unhinted, and with
the decoder itself reporting "en" the response degrades to "unknown" with
probability 0. -/
theorem c7_english_guard_witness :
    serveHint none ("en", 3/5) = none ∧
    (serve {} none ("en", 3/5) (borderlineDetDecoder "en") 0).language =
      "unknown" ∧
    (serve {} none ("en", 3/5)
      (borderlineDetDecoder "en") 0).language_probability = 0 := by
  have htemps : tempsFor {} 0 = [0] := by
    rw [tempsFor, if_neg (by decide)]
  have hclean := borderlineDetDecoder_clean "en"
  have hrun := runTemps_accepted {} (borderlineDetDecoder "en" none) 0 []
    hclean.1 hclean.2
  have hb := chosenBest_of_some {} none (borderlineDetDecoder "en" none)
    [0] _ _ _ hrun
  have hen : (chosenBest {} none (borderlineDetDecoder "en" none)
      (tempsFor {} 0)).language = "en" := by
    rw [htemps, hb]
    rfl
  have h := c7_english_guard {} ("en", 3/5) (3/5) (borderlineDetDecoder "en")
    0 rfl (by norm_num) (by norm_num)
  exact ⟨h.1, h.2 hen⟩

/-- C8 counterexample: three probe windows giving ("fr", 0.5), ("fr", 0.5),
("de", 0.9) at the default threshold 0.5.  After the second window the top
language's average exactly reaches the threshold with two supporting windows
and two windows processed — the claim's early stop would fire and return
("fr", 0.5) — yet the code's strict comparison keeps probing and the third
window flips the result to ("de", 0.9). -/
theorem c8_counterexample :
    detectLanguageImprovedClaim (1/2)
      [[("fr", 1/2)], [("fr", 1/2)], [("de", 9/10)]] = ("fr", 1/2) ∧
    detectLanguageImproved (1/2)
      [[("fr", 1/2)], [("fr", 1/2)], [("de", 9/10)]] = ("de", 9/10) ∧
    (detectLoop (1/2) [[("fr", 1/2)], [("fr", 1/2)]] [] 0 []).2.1 =
      [("fr", [1/2, 1/2])] ∧
    avgOf [1/2, 1/2] = 1/2 := by
  refine ⟨?_, ?_, ?_, by norm_num [avgOf]⟩
  · norm_num +decide [detectLanguageImprovedClaim, detectLoopClaim,
      chunkAccepted, aggAddChunk, aggAdd, earlyStopCheckClaim, argmaxBy,
      avgOf, min_def, max_def]
  · norm_num +decide [detectLanguageImproved, detectLoop, chunkAccepted,
      aggAddChunk, aggAdd, earlyStopCheck, argmaxBy, avgOf,
      detectFinalChoice, consistencyScore, min_def, max_def]
  · norm_num +decide [detectLoop, chunkAccepted, aggAddChunk, aggAdd,
      earlyStopCheck, argmaxBy, avgOf, min_def, max_def]

/-- C8 (amended): after an accepted probe window, early stopping fires exactly
when the top language's average accumulated probability STRICTLY exceeds the
threshold — relaxed to `max(0.4, threshold - 0.1)` once three windows were
accepted — that language has at least two supporting probabilities and at
least two windows were processed; absent early stop, with a populated
accumulator the chosen language is the first argmax of
`avg_prob * (0.7 + 0.3 * min(1, count/3))`, returned with its plain average,
and the result degrades to ("en", 0.0) whenever that average is below 0.5. -/
theorem c8_detection_selection :
    (∀ (threshold : ℚ) (agg : LangAgg) (processed : ℕ) (topLang : String)
        (probs : List ℚ),
      argmaxBy avgOf agg = some (topLang, probs) →
      (earlyStopCheck threshold agg processed = some (topLang, avgOf probs) ↔
        (avgOf probs >
            (if processed ≥ 3 then max (2/5) (threshold - 1/10)
              else threshold) ∧
          processed ≥ 2 ∧ probs.length ≥ 2))) ∧
    (∀ (agg : LangAgg) (last : ProbList) (lang : String) (probs : List ℚ),
      argmaxBy consistencyScore agg = some (lang, probs) →
      detectFinalChoice agg last =
        if avgOf probs < 1/2 then ("en", 0) else (lang, avgOf probs)) := by
  constructor
  · intro threshold agg processed topLang probs h
    simp only [earlyStopCheck, h]
    split_ifs with h3 hc hc
    · exact ⟨fun _ => hc, fun _ => rfl⟩
    · exact ⟨fun he => absurd he (by simp), fun hcond => absurd hcond hc⟩
    · exact ⟨fun _ => hc, fun _ => rfl⟩
    · exact ⟨fun he => absurd he (by simp), fun hcond => absurd hcond hc⟩
  · intro agg last lang probs h
    cases agg with
    | nil => simp [argmaxBy] at h
    | cons head tail => simp only [detectFinalChoice, h]

/-- C8 witness: at threshold 0.5 a language with accumulated probabilities
0.9 and 0.8 after two processed windows early-stops with its average, and the
final selection over a single-language accumulator returns that language with
its plain average. -/
theorem c8_detection_selection_witness :
    earlyStopCheck (1/2) [("de", [9/10, 4/5])] 2 =
      some ("de", avgOf [9/10, 4/5]) ∧
    detectFinalChoice [("de", [9/10])] [] =
      (if avgOf [9/10] < 1/2 then ("en", 0) else ("de", avgOf [9/10])) := by
  constructor
  · exact (c8_detection_selection.1 (1/2) [("de", [9/10, 4/5])] 2 "de"
      [9/10, 4/5] rfl).mpr
      ⟨by norm_num [avgOf], by norm_num, by norm_num⟩
  · exact c8_detection_selection.2 [("de", [9/10])] [] "de" [9/10] rfl

/-- `_clamp_probability` never returns a negative value. -/
theorem clampProbability_nonneg : ∀ v, 0 ≤ clampProbability v
  | none => le_refl 0
  | some q => by
    rw [clampProbability]
    split_ifs
    · norm_num
    · exact le_max_left 0 _

/-- `_clamp_probability` never exceeds 1. -/
theorem clampProbability_le_one : ∀ v, clampProbability v ≤ 1
  | none => by norm_num [clampProbability]
  | some q => by
    rw [clampProbability]
    split_ifs
    · norm_num
    · exact max_le (by norm_num) (min_le_left 1 q)

/-- The clamped `no_speech_prob` of a segment lies in `[0, 1]`. -/
theorem segClampedNsp_nonneg (s : ApiSegment) : 0 ≤ segClampedNsp s :=
  clampProbability_nonneg _

/-- The clamped `no_speech_prob` of a segment lies in `[0, 1]`. -/
theorem segClampedNsp_le_one (s : ApiSegment) : segClampedNsp s ≤ 1 :=
  clampProbability_le_one _

/-- The repaired `end` always strictly exceeds `start`. -/
theorem resolveStop_gt (totalDuration : Option ℚ) (s : ApiSegment)
    (start : ℚ) : start < resolveStop totalDuration s start := by
  cases h : stopAfterTotal totalDuration s start with
  | none =>
    simp only [resolveStop, h]
    linarith
  | some e =>
    simp only [resolveStop, h]
    split_ifs with hle
    · linarith
    · exact lt_of_not_ge hle

/-- C9: for every segment of an API response with a `segments` array, `start`
comes from `audio_start`, then `start`, else 0; `end` comes from the first
applicable of `audio_end`, `end`, `start + duration`, the response's total
duration (capped as `min(total, start + total)` when `start > 0`), or
`start + 0.5`; every emitted segment satisfies `end > start`;
`no_speech_prob` is clamped to `[0, 1]`; and a clamped value still at or
above 1 on a segment with nonempty stripped text is overridden to 0.1. -/
theorem c9_segment_normalization :
    ∀ (temperature : ℚ) (totalDuration : Option ℚ) (idStart idx : ℕ)
      (s : ApiSegment),
      ((∀ q, s.audio_start = some (some q) →
          (normalizeSegment temperature totalDuration idStart idx s).start = q) ∧
        (s.audio_start = some none →
          (normalizeSegment temperature totalDuration idStart idx s).start = 0) ∧
        (s.audio_start = none → ∀ q, s.start = some (some q) →
          (normalizeSegment temperature totalDuration idStart idx s).start = q) ∧
        (s.audio_start = none → s.start = some none →
          (normalizeSegment temperature totalDuration idStart idx s).start = 0) ∧
        (s.audio_start = none → s.start = none →
          (normalizeSegment temperature totalDuration idStart idx s).start = 0)) ∧
      ((∀ e, s.audio_stop = some (some e) → segStartOf s < e →
          (normalizeSegment temperature totalDuration idStart idx s).stop = e) ∧
        (s.audio_stop = none → ∀ e, s.stop = some (some e) →
          segStartOf s < e →
          (normalizeSegment temperature totalDuration idStart idx s).stop = e) ∧
        (stopUnusable (segStartOf s) (segStopRaw s) = true →
          ∀ d, s.duration = some (some d) → 0 < d →
          (normalizeSegment temperature totalDuration idStart idx s).stop =
            segStartOf s + d) ∧
        (stopUnusable (segStartOf s) (stopAfterDuration s (segStartOf s)) =
            true →
          ∀ td, totalDuration = some td → 0 < td →
          (normalizeSegment temperature totalDuration idStart idx s).stop =
            (if (if 0 < segStartOf s then min td (segStartOf s + td)
                else td) ≤ segStartOf s then segStartOf s + 1/2
              else if 0 < segStartOf s then min td (segStartOf s + td)
                else td)) ∧
        (stopUnusable (segStartOf s) (stopAfterDuration s (segStartOf s)) =
            true →
          totalDuration = none →
          (normalizeSegment temperature totalDuration idStart idx s).stop =
            segStartOf s + 1/2)) ∧
      (normalizeSegment temperature totalDuration idStart idx s).start <
        (normalizeSegment temperature totalDuration idStart idx s).stop ∧
      (0 ≤ (normalizeSegment temperature totalDuration idStart idx s).no_speech_prob ∧
        (normalizeSegment temperature totalDuration idStart idx s).no_speech_prob ≤ 1) ∧
      (segClampedNsp s ≥ 1 → pyStrip s.text ≠ "" →
        (normalizeSegment temperature totalDuration idStart idx s).no_speech_prob
          = 1/10) := by
  intro temperature totalDuration idStart idx s
  have hstart : (normalizeSegment temperature totalDuration idStart idx s).start
      = segStartOf s := rfl
  have hstop : (normalizeSegment temperature totalDuration idStart idx s).stop
      = resolveStop totalDuration s (segStartOf s) := rfl
  have hnsp :
      (normalizeSegment temperature totalDuration idStart idx s).no_speech_prob
      = segNoSpeechProb s := rfl
  refine ⟨⟨?_, ?_, ?_, ?_, ?_⟩, ⟨?_, ?_, ?_, ?_, ?_⟩, ?_, ⟨?_, ?_⟩, ?_⟩
  · intro q hq
    rw [hstart]
    simp [segStartOf, hq]
  · intro hq
    rw [hstart]
    simp [segStartOf, hq]
  · intro ha q hq
    rw [hstart]
    simp [segStartOf, ha, hq]
  · intro ha hq
    rw [hstart]
    simp [segStartOf, ha, hq]
  · intro ha hq
    rw [hstart]
    simp [segStartOf, ha, hq]
  · intro e he hlt
    have hraw : segStopRaw s = some e := by simp [segStopRaw, he]
    have hun : stopUnusable (segStartOf s) (some e) = false := by
      simp only [stopUnusable, decide_eq_false_iff_not]
      exact hlt.not_le
    have hd : stopAfterDuration s (segStartOf s) = some e := by
      rw [stopAfterDuration, hraw, hun]
      simp
    have ht : stopAfterTotal totalDuration s (segStartOf s) = some e := by
      rw [stopAfterTotal.eq_def, hd, hun]
      simp
    rw [hstop]
    simp only [resolveStop, ht]
    rw [if_neg hlt.not_le]
  · intro hao e he hlt
    have hraw : segStopRaw s = some e := by simp [segStopRaw, hao, he]
    have hun : stopUnusable (segStartOf s) (some e) = false := by
      simp only [stopUnusable, decide_eq_false_iff_not]
      exact hlt.not_le
    have hd : stopAfterDuration s (segStartOf s) = some e := by
      rw [stopAfterDuration, hraw, hun]
      simp
    have ht : stopAfterTotal totalDuration s (segStartOf s) = some e := by
      rw [stopAfterTotal.eq_def, hd, hun]
      simp
    rw [hstop]
    simp only [resolveStop, ht]
    rw [if_neg hlt.not_le]
  · intro hu d hd hdp
    have htof : toFloatOpt s.duration = some d := by rw [hd]; rfl
    have hd1 : stopAfterDuration s (segStartOf s) =
        some (segStartOf s + d) := by
      rw [stopAfterDuration, hu, htof]
      simp only [if_true]
      rw [if_pos hdp]
    have hun2 : stopUnusable (segStartOf s) (some (segStartOf s + d)) =
        false := by
      simp only [stopUnusable, decide_eq_false_iff_not]
      linarith
    have ht : stopAfterTotal totalDuration s (segStartOf s) =
        some (segStartOf s + d) := by
      rw [stopAfterTotal.eq_def, hd1, hun2]
      simp
    rw [hstop]
    simp only [resolveStop, ht]
    rw [if_neg (by linarith)]
  · intro hu2 td htd htdp
    have ht : stopAfterTotal totalDuration s (segStartOf s) =
        some (if 0 < segStartOf s then min td (segStartOf s + td)
          else td) := by
      rw [stopAfterTotal.eq_def, hu2, htd]
      simp only [if_true]
      rw [if_pos htdp]
    rw [hstop]
    simp only [resolveStop, ht]
  · intro hu2 htd
    have ht : stopAfterTotal totalDuration s (segStartOf s) =
        some (segStartOf s + 1/2) := by
      rw [stopAfterTotal.eq_def, hu2, htd]
      simp
    rw [hstop]
    simp only [resolveStop, ht]
    rw [if_neg (by linarith)]
  · rw [hstart, hstop]
    exact resolveStop_gt totalDuration s (segStartOf s)
  · rw [hnsp, segNoSpeechProb]
    split_ifs
    · norm_num
    · exact segClampedNsp_nonneg s
  · rw [hnsp, segNoSpeechProb]
    split_ifs
    · norm_num
    · exact segClampedNsp_le_one s
  · intro h1 h2
    rw [hnsp, segNoSpeechProb, if_pos ⟨h1, h2⟩]

/-- A concrete API segment: usable `audio_start`/`audio_end`, nonempty text,
and an oversaturated `no_speech_prob` of 2. -/
def demoApiSegment : ApiSegment :=
  { audio_start := some (some 1), audio_stop := some (some 3), text := "x",
    no_speech_prob := some (some 2) }

/-- C9 witness: the demo segment normalizes to `start = 1`, `end = 3` (from
`audio_start`/`audio_end`), `end > start`, and its oversaturated
`no_speech_prob` of 2 — clamped to 1 — is overridden to 0.1 because the text
is nonempty. -/
theorem c9_segment_normalization_witness :
    (normalizeSegment 0 none 0 0 demoApiSegment).start = 1 ∧
    (normalizeSegment 0 none 0 0 demoApiSegment).stop = 3 ∧
    (normalizeSegment 0 none 0 0 demoApiSegment).start <
      (normalizeSegment 0 none 0 0 demoApiSegment).stop ∧
    (0 ≤ (normalizeSegment 0 none 0 0 demoApiSegment).no_speech_prob ∧
      (normalizeSegment 0 none 0 0 demoApiSegment).no_speech_prob ≤ 1) ∧
    (normalizeSegment 0 none 0 0 demoApiSegment).no_speech_prob = 1/10 := by
  have h := c9_segment_normalization 0 none 0 0 demoApiSegment
  exact ⟨h.1.1 1 rfl, h.2.1.1 3 rfl (by decide), h.2.2.1, h.2.2.2.1,
    h.2.2.2.2 (by decide) (by decide)⟩

/-- C10: in every 200 response, `language_probability` is exactly 0 or
exactly 1; it is 0 precisely when the low-confidence auto-detect flag is set
and the chosen transcription's language is "en" — the case reported as
"unknown" — and 1 in every other case, so the detector's measured confidence
never reaches the response. -/
theorem c10_probability_binary (cfg : Config) (languageField : Option String)
    (det : String × ℚ) (decoderAt : Option String → ℚ → DecodeResult)
    (requestedTemp : ℚ) :
    ((serve cfg languageField det decoderAt requestedTemp).language_probability
        = 0 ∨
      (serve cfg languageField det decoderAt requestedTemp).language_probability
        = 1) ∧
    ((serve cfg languageField det decoderAt requestedTemp).language_probability
        = 0 ↔
      ((applyDetection languageField det).2 = true ∧
        (chosenBest cfg (applyDetection languageField det).1
          (decoderAt (applyDetection languageField det).1)
          (tempsFor cfg requestedTemp)).language = "en")) ∧
    ((serve cfg languageField det decoderAt requestedTemp).language_probability
        = 0 →
      (serve cfg languageField det decoderAt requestedTemp).language =
        "unknown") := by
  by_cases hc : (applyDetection languageField det).2 = true ∧
      (chosenBest cfg (applyDetection languageField det).1
        (decoderAt (applyDetection languageField det).1)
        (tempsFor cfg requestedTemp)).language = "en"
  · simp only [serve, serveCore]
    rw [if_pos hc]
    exact ⟨Or.inl rfl, ⟨fun _ => hc, fun _ => rfl⟩, fun _ => rfl⟩
  · simp only [serve, serveCore]
    rw [if_neg hc]
    refine ⟨Or.inr rfl, ⟨fun h10 => absurd h10 (by norm_num),
      fun h => absurd h hc⟩, fun h10 => absurd h10 (by norm_num)⟩

/-- C10 witness: the low-confidence silence request gets probability exactly
0 with language "unknown", and an explicit-language request gets probability
exactly 1. -/
theorem c10_probability_binary_witness :
    (serve {} none ("en", 0)
      (fun _ _ => ⟨[], "en"⟩) 0).language_probability = 0 ∧
    (serve {} none ("en", 0) (fun _ _ => ⟨[], "en"⟩) 0).language =
      "unknown" ∧
    (serve {} (some "fr") ("en", 0)
      (fun _ _ => ⟨[], "fr"⟩) 0).language_probability = 1 := by
  have h := c10_probability_binary {} none ("en", 0)
    (fun _ _ => ⟨[], "en"⟩) 0
  have h0 : (serve {} none ("en", 0)
      (fun _ _ => ⟨[], "en"⟩) 0).language_probability = 0 :=
    h.2.1.mpr ⟨by decide, by decide⟩
  have h' := c10_probability_binary {} (some "fr") ("en", 0)
    (fun _ _ => ⟨[], "fr"⟩) 0
  refine ⟨h0, h.2.2 h0, ?_⟩
  rcases h'.1 with h1 | h1
  · exact absurd (h'.2.1.mp h1) (by decide)
  · exact h1

end Vexa
